import Mathlib

/-!
Shallow embedding of the FusionMCPBridge add-in (ai-cad-fusion):
the bridge HTTP request handler (`FusionMCPBridge.py`), the action
registry (`core/router.py`), the error taxonomy (`core/errors.py`),
the base handler (`handlers/base.py`), the validation service
(`services/validators.py`), the entity resolver
(`services/entity_resolver.py`), and the MCP-server tool tables
(`mcp-server/fusion_mcp_server.py`).

Python values arriving from JSON bodies are modelled by `JVal`;
Python exceptions that can cross the handler boundary are modelled
by `PyExc`, with one constructor per error class of `core/errors.py`
plus a constructor for arbitrary non-bridge exceptions.
-/

namespace Bridge

/-- JSON-decoded Python values as seen by the bridge
(dicts, lists, strings, integers, booleans, None).
Numbers are restricted to integers here; fractional numeric values
(Python floats) get their own model `PyVal` below where the
distinction matters (`validate_non_negative_int`). -/
inductive JVal where
  | jnull : JVal
  | jbool : Bool → JVal
  | jnum : Int → JVal
  | jstr : String → JVal
  | jarr : List JVal → JVal
  | jobj : List (String × JVal) → JVal

namespace JVal

/-- Python truthiness of a JSON-decoded value (`if not action:` etc.). -/
def truthy : JVal → Bool
  | jnull => false
  | jbool b => b
  | jnum n => n ≠ 0
  | jstr s => s ≠ ""
  | jarr l => ¬ l.isEmpty
  | jobj l => ¬ l.isEmpty

/-- Embeds `dict.get(key)`: first binding wins, `None` (modelled as `Option.none`)
when the key is absent.  Only meaningful on `jobj`. -/
def get : JVal → String → Option JVal
  | jobj fields, k => (fields.find? (fun p => p.1 = k)).map Prod.snd
  | _, _ => none

/-- Python `str()` of a JSON-decoded value, as used by
`expression = str(args["expression"])`. -/
def pyStr : JVal → String
  | jnull => "None"
  | jbool true => "True"
  | jbool false => "False"
  | jnum n => toString n
  | jstr s => s
  | jarr _ => "<list>"
  | jobj _ => "<dict>"

/-- Python type name, used for the `AttributeError` message raised when
`req.get` is called on a non-dict value. -/
def typeName : JVal → String
  | jnull => "NoneType"
  | jbool _ => "bool"
  | jnum _ => "int"
  | jstr _ => "str"
  | jarr _ => "list"
  | jobj _ => "dict"

end JVal

/-- Exceptions that can cross a bridge handler boundary.
`validationError`, `fusionAPIError` and `actionNotSupported` are the
three `BridgeError` subclasses of `core/errors.py` (their codes are
fixed by their constructors); `pyError` stands for any other Python
exception. -/
inductive PyExc where
  | validationError : String → Option String → PyExc
  | fusionAPIError : String → Option String → PyExc
  | actionNotSupported : String → PyExc
  | pyError : String → PyExc
  deriving DecidableEq, Repr

namespace PyExc

/-- Embeds `e.code` for the `BridgeError` subclasses; `none` for other
exceptions (which have no `code` attribute). -/
def code : PyExc → Option String
  | validationError _ _ => some "E_BAD_ARGS"
  | fusionAPIError _ _ => some "E_RUNTIME"
  | actionNotSupported _ => some "E_ACTION_UNSUPPORTED"
  | pyError _ => none

/-- Embeds `e.message` for the `BridgeError` subclasses
(`ActionNotSupportedError.__init__` builds `"Unknown action: <a>"`);
for other exceptions we take their string form. -/
def message : PyExc → String
  | validationError m _ => m
  | fusionAPIError m _ => m
  | actionNotSupported a => "Unknown action: " ++ a
  | pyError m => m

/-- Embeds `e.details` dict of a `BridgeError`: `{"field": f}` / `{"operation": o}`
when given, `{}` otherwise; `[]` for plain exceptions which have none. -/
def details : PyExc → List (String × String)
  | validationError _ (some f) => [("field", f)]
  | fusionAPIError _ (some o) => [("operation", o)]
  | _ => []

/-- Python `str(e)`: `BridgeError.__init__` passes
`f"{code}: {message}"` to `Exception`. -/
def pyStr : PyExc → String
  | validationError m f => "E_BAD_ARGS: " ++ (validationError m f).message
  | fusionAPIError m o => "E_RUNTIME: " ++ (fusionAPIError m o).message
  | actionNotSupported a => "E_ACTION_UNSUPPORTED: " ++ (actionNotSupported a).message
  | pyError m => m

/-- Class test used by `except ValidationError:` in `BaseHandler.handle`. -/
def isValidationError : PyExc → Bool
  | validationError _ _ => true
  | _ => false

end PyExc

/-- Embeds `BaseHandler.handle` (handlers/base.py, lines 30-38):
run `validate` then `execute` inside one `try`; a `ValidationError`
re-raises unchanged, any other exception is wrapped into
`FusionAPIError(f"Operation failed: {str(e)}")`. -/
def baseHandle (validate execute : JVal → Except PyExc JVal) (args : JVal) :
    Except PyExc JVal :=
  match validate args with
  | .error e =>
      if e.isValidationError then .error e
      else .error (.fusionAPIError ("Operation failed: " ++ e.pyStr) none)
  | .ok v =>
      match execute v with
      | .error e =>
          if e.isValidationError then .error e
          else .error (.fusionAPIError ("Operation failed: " ++ e.pyStr) none)
      | .ok r => .ok r

/-- A registry as built by `HandlerRegistry`: each registered action maps
to a handler instance, i.e. a `validate`/`execute` pair whose entry point
is `BaseHandler.handle`. -/
structure Registry where
  handlers : List (String × ((JVal → Except PyExc JVal) × (JVal → Except PyExc JVal)))

/-- Embeds `HandlerRegistry.get_handler` (core/router.py, lines 159-163):
one dictionary lookup, raising `ActionNotSupportedError(action)` on a miss. -/
def Registry.get_handler (g : Registry) (action : String) :
    Except PyExc ((JVal → Except PyExc JVal) × (JVal → Except PyExc JVal)) :=
  match g.handlers.find? (fun p => p.1 = action) with
  | none => .error (.actionNotSupported action)
  | some p => .ok p.2

/-- Embeds `HandlerRegistry.handle_action` (core/router.py, lines 165-168):
look the handler up, then call its `handle` method. -/
def Registry.handle_action (g : Registry) (action : String) (args : JVal) :
    Except PyExc JVal :=
  match g.get_handler action with
  | .error e => .error e
  | .ok (v, ex) => baseHandle v ex args

/-- Membership of an action in the registry's handler dict. -/
def Registry.hasAction (g : Registry) (action : String) : Bool :=
  (g.handlers.find? (fun p => p.1 = action)).isSome

/-! ## The bridge HTTP layer (`FusionMCPBridge.py`) -/

/-- The body of a POST request as the handler perceives it:
no/empty body (`Content-Length` absent or `<= 0`), an unparseable
`Content-Length` header (Python `int()` raises inside the outer `try`),
a body that `json.loads` rejects (`JSONDecodeError` with this message),
or a decoded JSON value. -/
inductive ReqBody where
  | empty : ReqBody
  | badLength : String → ReqBody
  | malformed : String → ReqBody
  | parsed : JVal → ReqBody

/-- An incoming POST request: URL path, optional `X-Bridge-Token`
header, body. -/
structure PostRequest where
  path : String
  token : Option String
  body : ReqBody

/-- An incoming GET request. -/
structure GetRequest where
  path : String
  token : Option String

/-- The `error` object of an error response body: `code`, `message`,
and the `details` dict (omitted from the JSON exactly when empty,
since `_send_error` guards it with `if details:`). -/
structure ErrorInfo where
  code : String
  message : String
  details : List (String × String)

/-- Response bodies the bridge can produce: `{"status": "ok",
"result": ..., ["id": ...]}`, the `/dev/reload` success body
`{"status": "ok", "reloaded": true}`, the `/health` body, or
`{"status": "error", "error": {...}, ["id": ...]}`. -/
inductive RespBody where
  | okResult : JVal → Option JVal → RespBody
  | okReload : RespBody
  | healthOk : RespBody
  | err : ErrorInfo → Option JVal → RespBody

/-- An HTTP response: status code and JSON body. -/
structure HttpResp where
  status : Nat
  body : RespBody

/-- The dynamic environment a request is handled in: the configured
auth token (`config.BRIDGE_AUTH_TOKEN`), whether dev reload is enabled
(`_is_dev_reload_enabled()`), the outcome a registry rebuild would
have, and the bound registry's `handle_action` (action value, args
value). -/
structure Env where
  authToken : Option String
  devReload : Bool
  reload : Except PyExc Unit
  registry : JVal → JVal → Except PyExc JVal

/-- The comparison inside `_check_auth` (FusionMCPBridge.py, lines
167-177): with no configured token every request passes; otherwise
`self.headers.get("X-Bridge-Token") != auth_token` fails exactly when
the header is absent or differs. -/
def tokenMatches (cfg : Option String) (hdr : Option String) : Bool :=
  match cfg with
  | none => true
  | some t => hdr = some t

/-- How each exception raised by `handle_action` is turned into an
error response by the `except` chain of `do_POST` (lines 277-292):
the three `BridgeError` classes surface their own `code`/`message`
(`ActionNotSupportedError` without details, the other two with
theirs), any other exception becomes `E_RUNTIME` with `str(e)`. -/
def catchErrorInfo : PyExc → ErrorInfo
  | .actionNotSupported a => ⟨"E_ACTION_UNSUPPORTED", (PyExc.actionNotSupported a).message, []⟩
  | .validationError m f =>
      ⟨"E_BAD_ARGS", m, (PyExc.validationError m f).details⟩
  | .fusionAPIError m o =>
      ⟨"E_RUNTIME", m, (PyExc.fusionAPIError m o).details⟩
  | .pyError m => ⟨"E_RUNTIME", m, []⟩

/-- Embeds `BridgeRequestHandler.do_POST` (FusionMCPBridge.py, lines 209-302).
Returns the response together with a flag telling whether
`self._registry.handle_action` was invoked.  Auth first; then the
`/dev/reload` branch; any other path than `/v1/execute` is
`E_NOT_FOUND`; then body / JSON / `action` checks; finally the
registry call under the `except` chain.  Every `_send_error` call in
`do_POST` passes HTTP status 200. -/
def doPOST (env : Env) (req : PostRequest) : HttpResp × Bool :=
  if ¬ tokenMatches env.authToken req.token then
    (⟨200, .err ⟨"E_UNAUTHORIZED", "Invalid or missing X-Bridge-Token header", []⟩ none⟩, false)
  else if req.path = "/dev/reload" then
    if ¬ env.devReload then
      (⟨200, .err ⟨"E_UNAUTHORIZED",
        "Dev reload disabled (set BRIDGE_DEV_RELOAD=1 or config.DEV_RELOAD_ENABLED=True)", []⟩ none⟩,
       false)
    else
      match env.reload with
      | .ok _ => (⟨200, .okReload⟩, false)
      | .error e => (⟨200, .err ⟨"E_RUNTIME", e.pyStr, []⟩ none⟩, false)
  else if req.path ≠ "/v1/execute" then
    (⟨200, .err ⟨"E_NOT_FOUND", "Endpoint not found", []⟩ none⟩, false)
  else
    match req.body with
    | .empty => (⟨200, .err ⟨"E_BAD_ARGS", "Missing request body", []⟩ none⟩, false)
    | .badLength msg => (⟨200, .err ⟨"E_RUNTIME", msg, []⟩ none⟩, false)
    | .malformed msg => (⟨200, .err ⟨"E_BAD_JSON", "Invalid JSON: " ++ msg, []⟩ none⟩, false)
    | .parsed j =>
      match j with
      | .jobj fields =>
        let r := JVal.jobj fields
        let action := (r.get "action").getD .jnull
        let args := (r.get "args").getD (.jobj [])
        let idOpt := match r.get "id" with
          | some v => if v.truthy then some v else none
          | none => none
        if ¬ action.truthy then
          (⟨200, .err ⟨"E_BAD_ARGS", "Missing 'action' field", []⟩ idOpt⟩, false)
        else
          match env.registry action args with
          | .ok res => (⟨200, .okResult res idOpt⟩, true)
          | .error e => (⟨200, .err (catchErrorInfo e) idOpt⟩, true)
      | other =>
        (⟨200, .err ⟨"E_RUNTIME",
          "'" ++ other.typeName ++ "' object has no attribute 'get'", []⟩ none⟩,
         false)

/-- Embeds `BridgeRequestHandler.do_GET` (FusionMCPBridge.py, lines 179-207):
auth, then `/health` (200, ok body built by `get_fusion_state`, which
catches its own exceptions), any other path a 404 with an
`E_NOT_FOUND` error body. -/
def doGET (env : Env) (req : GetRequest) : HttpResp :=
  if ¬ tokenMatches env.authToken req.token then
    ⟨200, .err ⟨"E_UNAUTHORIZED", "Invalid or missing X-Bridge-Token header", []⟩ none⟩
  else if req.path = "/health" then
    ⟨200, .healthOk⟩
  else
    ⟨404, .err ⟨"E_NOT_FOUND", "Endpoint not found", []⟩ none⟩

/-! ## Validation service (`services/validators.py`) and handlers -/

/-- A Python dict of handler arguments (insertion order, first binding
wins on lookup, as for a Python dict with unique keys). -/
abbrev PyDict := List (String × JVal)

/-- Embeds `dict.get(key)` on an argument dict. -/
def pyGet (d : PyDict) (k : String) : Option JVal :=
  (d.find? (fun p => p.1 = k)).map Prod.snd

/-- Embeds `ValidationService.ALLOWED_UNITS`. -/
def ALLOWED_UNITS : List String := ["", "mm", "cm", "m", "in", "ft", "deg"]

/-- Embeds `ValidationService.ALLOWED_PLANES`. -/
def ALLOWED_PLANES : List String := ["XY", "YZ", "XZ"]

/-- Embeds `ValidationService.validate_required_fields` (validators.py, lines
19-27): collect the required keys absent from the dict and raise a
`ValidationError` naming them. -/
def validate_required_fields (args : PyDict) (required : List String) :
    Except PyExc Unit :=
  match required.filter (fun f => (pyGet args f).isNone) with
  | [] => .ok ()
  | [f] => .error (.validationError ("Missing required field: " ++ f) none)
  | fs => .error (.validationError
      ("Missing required fields: " ++ String.intercalate ", " fs) none)

/-- Python `str.strip()`: drop leading and trailing whitespace. -/
def pyStrip (s : String) : String :=
  ⟨((s.data.dropWhile Char.isWhitespace).reverse.dropWhile Char.isWhitespace).reverse⟩

/-- Embeds `ValidationService.validate_non_empty_string` (lines 70-74):
reject non-strings and strings that strip to empty, return the
stripped string. -/
def validate_non_empty_string (v : JVal) (fieldName : String) :
    Except PyExc String :=
  match v with
  | .jstr s =>
      if pyStrip s = "" then
        .error (.validationError (fieldName ++ " must be a non-empty string") none)
      else .ok (pyStrip s)
  | _ => .error (.validationError (fieldName ++ " must be a non-empty string") none)

/-- Embeds `ValidationService.validate_unit` (lines 29-34): non-strings are a
type error (still a `ValidationError`), strings must be in the
allowlist. -/
def validate_unit (unit : JVal) : Except PyExc Unit :=
  match unit with
  | .jstr s =>
      if ALLOWED_UNITS.contains s then .ok ()
      else .error (.validationError
        ("Invalid unit '" ++ s ++ "'. Allowed units: " ++
          String.intercalate ", " (ALLOWED_UNITS.map (fun u => "'" ++ u ++ "'"))) none)
  | other => .error (.validationError
      ("Invalid unit type: <class '" ++ other.typeName ++ "'>") none)

/-- Embeds `ValidationService.validate_plane` (lines 36-41): `plane.upper()`
raises `AttributeError` on a non-string (escaping as a plain Python
exception, not a `ValidationError`); an upper-cased string must be in
the allowlist and is returned normalized. -/
def validate_plane (plane : JVal) : Except PyExc String :=
  match plane with
  | .jstr s =>
      let u := s.toUpper
      if ALLOWED_PLANES.contains u then .ok u
      else .error (.validationError
        ("Invalid plane '" ++ s ++ "'. Allowed planes: " ++
          String.intercalate ", " ALLOWED_PLANES) none)
  | other => .error (.pyError
      ("'" ++ other.typeName ++ "' object has no attribute 'upper'"))

/-- The design state the parameter/sketch handlers read and mutate:
the user parameter names of the active design and the sketch names of
its root component. -/
structure DesignState where
  userParams : List String
  sketches : List String

/-- Embeds `ValidationService.check_parameter_name_collision` (lines 76-81). -/
def check_parameter_name_collision (name : String) (userParams : List String) :
    Except PyExc Unit :=
  if userParams.contains name then
    .error (.validationError ("Parameter '" ++ name ++ "' already exists") none)
  else .ok ()

/-- Embeds `ValidationService.check_sketch_name_collision` (lines 83-87). -/
def check_sketch_name_collision (name : String) (sketches : List String) :
    Except PyExc Unit :=
  if sketches.contains name then
    .error (.validationError ("Sketch '" ++ name ++ "' already exists") none)
  else .ok ()

/-- The `except`-clause translation of `BaseHandler.handle` applied to
one raised exception: `ValidationError` re-raises, everything else is
wrapped into `FusionAPIError("Operation failed: " + str(e))`. -/
def wrapExc (e : PyExc) : PyExc :=
  if e.isValidationError then e
  else .fusionAPIError ("Operation failed: " ++ e.pyStr) none

/-- The dict `CreateParameterHandler.validate` returns (normalized
arguments). -/
structure ParamArgs where
  name : String
  expression : String
  unit : String
  comment : String

/-- Embeds `CreateParameterHandler.validate` (handlers/parameters.py, lines
13-38): required fields, non-empty `name`, `str()` of `expression`,
unit allowlist, `comment` a string when provided, then the parameter
name collision check against the design. -/
def createParameterValidate (design : DesignState) (args : PyDict) :
    Except PyExc ParamArgs := do
  _ ← validate_required_fields args ["name", "expression", "unit"]
  let name ← validate_non_empty_string ((pyGet args "name").getD .jnull) "name"
  let expression := ((pyGet args "expression").getD .jnull).pyStr
  let unitV := (pyGet args "unit").getD .jnull
  let commentV := (pyGet args "comment").getD (.jstr "")
  _ ← validate_unit unitV
  _ ← (match commentV with
       | .jnull => Except.ok ()
       | .jstr _ => Except.ok ()
       | _ => Except.error (.validationError "comment must be a string when provided" none))
  _ ← check_parameter_name_collision name design.userParams
  return { name := name
           expression := expression
           unit := match unitV with | .jstr s => s | _ => ""
           comment := match commentV with | .jstr s => s | _ => "" }

/-- Embeds `CreateParameterHandler.handle` = `BaseHandler.handle` over this
handler's `validate`/`execute`: on success `execute` performs the one
host call `design.userParameters.add(...)`, which adds the new name to
the design; on error the design is untouched.  Returns the handler
outcome together with the resulting design state. -/
def createParameterHandle (design : DesignState) (args : PyDict) :
    Except PyExc ParamArgs × DesignState :=
  match createParameterValidate design args with
  | .error e => (.error (wrapExc e), design)
  | .ok v => (.ok v, { design with userParams := design.userParams ++ [v.name] })

/-- The dict `CreateSketchHandler.validate` returns. -/
structure SketchArgs where
  plane : String
  name : String

/-- Embeds `CreateSketchHandler.validate` (handlers/sketches.py, lines
13-29): required fields, plane allowlist (normalized), non-empty
`name`, then the sketch name collision check against the root
component. -/
def createSketchValidate (design : DesignState) (args : PyDict) :
    Except PyExc SketchArgs := do
  _ ← validate_required_fields args ["plane", "name"]
  let plane ← validate_plane ((pyGet args "plane").getD .jnull)
  let name ← validate_non_empty_string ((pyGet args "name").getD .jnull) "name"
  _ ← check_sketch_name_collision name design.sketches
  return { plane := plane, name := name }

/-- Embeds `CreateSketchHandler.handle` = `BaseHandler.handle` over this
handler's `validate`/`execute`: on success `execute` adds a sketch
with the requested name to the root component; on error the design is
untouched. -/
def createSketchHandle (design : DesignState) (args : PyDict) :
    Except PyExc SketchArgs × DesignState :=
  match createSketchValidate design args with
  | .error e => (.error (wrapExc e), design)
  | .ok v => (.ok v, { design with sketches := design.sketches ++ [v.name] })

/-! ## Entity resolver (`services/entity_resolver.py`) -/

/-- The root component as the resolver sees it: its name and its
`bRepBodies` collection, as the list of body names in collection
order.  A resolver call receives the current state — nothing is
cached between calls. -/
structure RootComp where
  name : String
  bodies : List String

/-- Python `==` between a JSON-decoded value and a `str`: true exactly
for the equal string. -/
def JVal.eqStr : JVal → String → Bool
  | .jstr s, t => s = t
  | _, _ => false

/-- Whether a JSON-decoded value is a dict (`isinstance(ref, dict)`). -/
def JVal.isObj : JVal → Bool
  | .jobj _ => true
  | _ => false

/-- Embeds `ref.get(k)` with Python's `None` for an absent key. -/
def refField (ref : JVal) (k : String) : JVal :=
  (ref.get k).getD .jnull

/-- Index of the first element equal (in Python's `==` sense) to the
requested body value — the linear search of `resolve_body_ref`. -/
def findFirstIdx (bodies : List String) (bv : JVal) : Option Nat :=
  match bodies with
  | [] => none
  | b :: rest =>
      if bv.eqStr b then some 0
      else (findFirstIdx rest bv).map Nat.succ

/-- Embeds `EntityResolver.resolve_body_ref` (entity_resolver.py, lines
16-41): validate the ref is a dict with truthy `component` and `body`,
restrict to the root component, then linearly search the root's bodies
and return the first one whose name equals the requested body (here:
its index into the current `bRepBodies` list). -/
def resolve_body_ref (root : RootComp) (ref : JVal) : Except PyExc Nat :=
  if ¬ ref.isObj then
    .error (.validationError "bodyRef must be an object" none)
  else
    let comp := refField ref "component"
    let body := refField ref "body"
    if ¬ comp.truthy ∨ ¬ body.truthy then
      .error (.validationError "bodyRef requires 'component' and 'body'" none)
    else if ¬ comp.eqStr root.name then
      .error (.validationError "Only bodies in the root component are supported in v0" none)
    else
      match findFirstIdx root.bodies body with
      | some i => .ok i
      | none => .error (.validationError
          ("Body '" ++ body.pyStr ++ "' not found in component '" ++ comp.pyStr ++ "'") none)

/-! ## Python `int()` and `validate_non_negative_int` -/

/-- Python float values: finite floats are modelled as exact
rationals (the truncation behaviour under scrutiny is representation
independent), and the IEEE specials `inf`, `-inf` and `nan` are
represented explicitly because `int()` treats them specially
(`OverflowError` resp. `ValueError`). -/
inductive PyFloat where
  | finite : ℚ → PyFloat
  | inf : PyFloat
  | negInf : PyFloat
  | nan : PyFloat
  deriving DecidableEq

/-- Python runtime values that can reach
`ValidationService.validate_non_negative_int` from decoded JSON
(`json.loads` produces floats ±inf/nan for `Infinity`, `-Infinity`,
`NaN`): `None`, booleans, integers, floats, strings, lists, dicts. -/
inductive PyVal where
  | pnone : PyVal
  | pbool : Bool → PyVal
  | pint : Int → PyVal
  | pfloat : PyFloat → PyVal
  | pstr : String → PyVal
  | plist : PyVal
  | pdict : PyVal

/-- Truncation toward zero, the rounding of Python `int(float)` on a
finite float. -/
def pyTrunc (q : ℚ) : Int :=
  q.num.tdiv (q.den : Int)

/-- Base codepoints of the 66 ten-character runs making up the Unicode
category Nd (decimal digits, Unicode 14.0.0); Python `int(str)`
accepts any Nd character as a digit, with the digit's value being its
offset into the run. -/
def ndDigitRunBases : List Nat :=
  [0x00030, 0x00660, 0x006F0, 0x007C0, 0x00966, 0x009E6, 0x00A66, 0x00AE6,
   0x00B66, 0x00BE6, 0x00C66, 0x00CE6, 0x00D66, 0x00DE6, 0x00E50, 0x00ED0,
   0x00F20, 0x01040, 0x01090, 0x017E0, 0x01810, 0x01946, 0x019D0, 0x01A80,
   0x01A90, 0x01B50, 0x01BB0, 0x01C40, 0x01C50, 0x0A620, 0x0A8D0, 0x0A900,
   0x0A9D0, 0x0A9F0, 0x0AA50, 0x0ABF0, 0x0FF10, 0x104A0, 0x10D30, 0x11066,
   0x110F0, 0x11136, 0x111D0, 0x112F0, 0x11450, 0x114D0, 0x11650, 0x116C0,
   0x11730, 0x118E0, 0x11950, 0x11C50, 0x11D50, 0x11DA0, 0x16A60, 0x16AC0,
   0x16B50, 0x1D7CE, 0x1D7D8, 0x1D7E2, 0x1D7EC, 0x1D7F6, 0x1E140, 0x1E2F0,
   0x1E950, 0x1FBF0]

/-- Decimal value of a Unicode Nd digit character, `none` for any
other character. -/
def pyDigitVal (c : Char) : Option Nat :=
  (ndDigitRunBases.find? (fun b => b ≤ c.toNat && c.toNat ≤ b + 9)).map
    (fun b => c.toNat - b)

/-- Digit tail of a Python integer literal: digits with optional
single underscores between digits (an underscore must be followed by a
digit, so trailing or doubled underscores fail). -/
def pyDigitsVal (acc : Nat) : List Char → Option Nat
  | [] => some acc
  | '_' :: rest =>
    match rest with
    | c :: rest2 =>
      match pyDigitVal c with
      | some d => pyDigitsVal (acc * 10 + d) rest2
      | none => none
    | [] => none
  | c :: rest =>
    match pyDigitVal c with
    | some d => pyDigitsVal (acc * 10 + d) rest
    | none => none

/-- Value of a digit group: the first character must be a digit (so a
leading underscore fails), then the underscore-aware tail. -/
def pyDigitStringVal (cs : List Char) : Option Nat :=
  match cs with
  | [] => none
  | c :: rest =>
    match pyDigitVal c with
    | some d => pyDigitsVal d rest
    | none => none

/-- Python whitespace as stripped by `int(str)` (the `str.isspace`
set): ASCII control whitespace, NEL, NBSP and the Unicode space and
line separators. -/
def pyIsSpace (c : Char) : Bool :=
  let n := c.toNat
  (0x09 ≤ n && n ≤ 0x0D) || n = 0x20 || (0x1C ≤ n && n ≤ 0x1F) || n = 0x85 ||
  n = 0xA0 || n = 0x1680 || (0x2000 ≤ n && n ≤ 0x200A) || n = 0x2028 ||
  n = 0x2029 || n = 0x202F || n = 0x205F || n = 0x3000

/-- Strip leading and trailing Python whitespace from a character
list. -/
def pyIntStrip (cs : List Char) : List Char :=
  ((cs.dropWhile pyIsSpace).reverse.dropWhile pyIsSpace).reverse

/-- Python `int(s)` for a string: strip whitespace, optional sign,
then a non-empty underscore-grouped run of Unicode decimal digits;
anything else raises `ValueError` (`none`). -/
def pyIntOfStr (s : String) : Option Int :=
  match pyIntStrip s.data with
  | '+' :: rest => (pyDigitStringVal rest).map Int.ofNat
  | '-' :: rest => (pyDigitStringVal rest).map (fun n => -(n : Int))
  | rest => (pyDigitStringVal rest).map Int.ofNat

/-- Outcome of Python `int(value)`, distinguishing the exception
classes because `validate_non_negative_int` catches only
`TypeError` and `ValueError` while `OverflowError` (from an infinite
float) escapes it. -/
inductive PyIntResult where
  | ok : Int → PyIntResult
  | typeError : PyIntResult
  | valueError : PyIntResult
  | overflowError : PyIntResult
  deriving DecidableEq

/-- Python `int(value)`: identity on ints, 0/1 on booleans, truncation
toward zero on finite floats, base-10 parse on strings
(`ValueError` on a malformed literal); `None`, lists and dicts raise
`TypeError`; infinite floats raise `OverflowError` and `nan` raises
`ValueError`. -/
def pyIntConv : PyVal → PyIntResult
  | .pnone => .typeError
  | .pbool b => .ok (if b then 1 else 0)
  | .pint n => .ok n
  | .pfloat (.finite q) => .ok (pyTrunc q)
  | .pfloat .inf => .overflowError
  | .pfloat .negInf => .overflowError
  | .pfloat .nan => .valueError
  | .pstr s =>
    match pyIntOfStr s with
    | some n => .ok n
    | none => .valueError
  | .plist => .typeError
  | .pdict => .typeError

/-- Embeds `ValidationService.validate_non_negative_int` (validators.py,
lines 53-61): `num = int(value)` inside `try`; a negative result, or a
`TypeError`/`ValueError` from the conversion, raises a
`ValidationError`; an `OverflowError` from `int()` on an infinite
float is not caught by `except (TypeError, ValueError)` and escapes
the validator as a plain Python exception (str `cannot convert float
infinity to integer`); otherwise the converted integer is returned. -/
def validate_non_negative_int (v : PyVal) (fieldName : String) :
    Except PyExc Int :=
  match pyIntConv v with
  | .ok n =>
      if n < 0 then
        .error (.validationError (fieldName ++ " must be a non-negative integer") none)
      else .ok n
  | .typeError => .error (.validationError (fieldName ++ " must be a non-negative integer") none)
  | .valueError => .error (.validationError (fieldName ++ " must be a non-negative integer") none)
  | .overflowError => .error (.pyError "cannot convert float infinity to integer")

/-! ## Tool and action name tables -/

/-- The action names registered by `HandlerRegistry._initialize_handlers`
(core/router.py, lines 97-139), in registration order. -/
def registryActions : List String :=
  ["get_design_info", "create_parameter", "update_parameter", "create_sketch",
   "extrude_profile",
   "list_open_documents", "get_open_document_info", "open_document",
   "focus_document", "close_document", "backup_document", "get_document_type",
   "get_document_structure",
   "sketch_draw_line", "sketch_draw_circle", "sketch_draw_rectangle",
   "create_sketch_from_face", "project_edges", "set_is_construction",
   "revolve_profile", "combine_bodies",
   "rotate_body",
   "add_constraints", "add_dimension_distance",
   "measure_geometry",
   "trigger_ui_command"]

/-- The `name=` of every `Tool` in the list returned by the MCP
server's `list_tools` (mcp-server/fusion_mcp_server.py, lines
394-1352), in order of appearance. -/
def mcpToolNames : List String :=
  ["get_design_info", "create_parameter", "create_sketch",
   "sketch_draw_line", "sketch_draw_circle", "sketch_draw_rectangle",
   "extrude_profile", "revolve_profile", "combine_bodies", "rotate_body",
   "list_open_documents", "get_open_document_info", "open_document",
   "focus_document", "close_document", "backup_document",
   "get_document_type", "get_document_structure",
   "measure_geometry", "update_parameter",
   "add_constraints", "add_dimension_distance",
   "create_sketch_from_face", "project_edges", "set_is_construction",
   "trigger_ui_command"]

/-- The keys of the MCP server's dispatch table `_TOOL_HANDLERS`
(mcp-server/fusion_mcp_server.py, lines 1655-1687), in order of
appearance. -/
def toolHandlerKeys : List String :=
  ["get_design_info", "create_parameter", "create_sketch",
   "sketch_draw_line", "sketch_draw_circle", "sketch_draw_rectangle",
   "extrude_profile",
   "list_open_documents", "get_open_document_info", "open_document",
   "focus_document", "close_document", "backup_document", "get_document_type",
   "get_document_structure", "measure_geometry",
   "update_parameter",
   "add_constraints", "add_dimension_distance", "revolve_profile",
   "combine_bodies", "rotate_body",
   "create_sketch_from_face", "project_edges", "set_is_construction",
   "trigger_ui_command"]

/-! ## Concrete sample data for witness instantiations -/

/-- A sample environment: no auth token, dev reload off, a registry
that answers every call with an empty result dict. -/
def env0 : Env :=
  { authToken := none
    devReload := false
    reload := .ok ()
    registry := fun _ _ => .ok (.jobj []) }

/-- A sample environment with an auth token configured. -/
def envTok : Env :=
  { env0 with authToken := some "secret" }

/-- A POST to `/v1/execute` with an empty body. -/
def reqEmptyBody : PostRequest :=
  { path := "/v1/execute", token := none, body := .empty }

/-- A POST to `/v1/execute` whose body `json.loads` rejects. -/
def reqBadJson : PostRequest :=
  { path := "/v1/execute", token := none, body := .malformed "Expecting value: line 1 column 1 (char 0)" }

/-- A POST to `/v1/execute` carrying the wrong token. -/
def reqWrongTok : PostRequest :=
  { path := "/v1/execute", token := some "wrong"
    body := .parsed (.jobj [("action", .jstr "get_design_info")]) }

/-- The empty registry. -/
def reg0 : Registry := ⟨[]⟩

/-- A sample design state owning parameter `width` and sketch `Base`. -/
def design0 : DesignState :=
  { userParams := ["width"], sketches := ["Base"] }

/-- A sample root component with two bodies. -/
def root0 : RootComp :=
  { name := "RootComp", bodies := ["Body1", "Body2"] }

/-- Arguments requesting creation of the already-existing parameter
`width`. -/
def argsDupParam : PyDict :=
  [("name", .jstr "width"), ("expression", .jstr "5 mm"), ("unit", .jstr "mm")]

/-- Arguments requesting creation of the already-existing sketch
`Base`. -/
def argsDupSketch : PyDict :=
  [("plane", .jstr "XY"), ("name", .jstr "Base")]

/-- A GET request to the health endpoint. -/
def greq0 : GetRequest := { path := "/health", token := none }

/-- A bodyRef naming `Body2` in the root component. -/
def refBody2 : JVal :=
  .jobj [("component", .jstr "RootComp"), ("body", .jstr "Body2")]

/-! ## Helper lemmas -/

lemma baseHandle_error_shape (v ex : JVal → Except PyExc JVal) (args : JVal)
    (e : PyExc) (h : baseHandle v ex args = .error e) :
    e.isValidationError = true ∨ ∃ m, e = .fusionAPIError m none := by
  unfold baseHandle at h
  cases hv : v args with
  | error e' =>
    rw [hv] at h
    by_cases he' : e'.isValidationError
    · simp [he'] at h; subst h; exact Or.inl he'
    · simp [he'] at h; subst h; exact Or.inr ⟨_, rfl⟩
  | ok val =>
    rw [hv] at h
    dsimp only at h
    cases hx : ex val with
    | error e' =>
      rw [hx] at h
      by_cases he' : e'.isValidationError
      · simp [he'] at h; subst h; exact Or.inl he'
      · simp [he'] at h; subst h; exact Or.inr ⟨_, rfl⟩
    | ok r => rw [hx] at h; cases h

lemma baseHandle_ne_actionNotSupported (v ex : JVal → Except PyExc JVal)
    (args : JVal) (a : String) :
    baseHandle v ex args ≠ .error (.actionNotSupported a) := by
  intro h
  rcases baseHandle_error_shape v ex args _ h with hv | ⟨m, hm⟩
  · simp [PyExc.isValidationError] at hv
  · cases hm

lemma findFirstIdx_none_iff (bodies : List String) (bv : JVal) :
    findFirstIdx bodies bv = none ↔ ∀ b ∈ bodies, bv.eqStr b = false := by
  induction bodies with
  | nil => simp [findFirstIdx]
  | cons b rest ih =>
    unfold findFirstIdx
    by_cases h : bv.eqStr b
    · simp [h]
    · have h' : bv.eqStr b = false := by simpa using h
      simp only [h', Option.map_eq_none', ih, List.mem_cons, if_false,
        Bool.false_eq_true]
      constructor
      · rintro hrest b' (rfl | hb')
        · exact h'
        · exact hrest b' hb'
      · intro hall b' hb'
        exact hall b' (Or.inr hb')

lemma findFirstIdx_some (bodies : List String) (bv : JVal) (i : Nat)
    (h : findFirstIdx bodies bv = some i) :
    ∃ b, bodies.get? i = some b ∧ bv.eqStr b = true ∧
      ∀ j b', j < i → bodies.get? j = some b' → bv.eqStr b' = false := by
  induction bodies generalizing i with
  | nil => cases h
  | cons b rest ih =>
    unfold findFirstIdx at h
    by_cases hb : bv.eqStr b
    · simp only [hb, if_true] at h
      cases h
      exact ⟨b, rfl, hb, fun j b' hj _ => absurd hj (Nat.not_lt_zero j)⟩
    · simp only [hb, if_false] at h
      cases hr : findFirstIdx rest bv with
      | none => rw [hr] at h; cases h
      | some k =>
        rw [hr] at h
        simp only [Option.map_some'] at h
        cases h
        obtain ⟨b'', hget, heq, hfirst⟩ := ih k hr
        refine ⟨b'', by simpa using hget, heq, ?_⟩
        intro j b' hj hget'
        cases j with
        | zero =>
          simp only [List.get?_cons_zero, Option.some_inj] at hget'
          subst hget'
          simpa using hb
        | succ j' =>
          exact hfirst j' b' (Nat.lt_of_succ_lt_succ hj) (by simpa using hget')

lemma wrapExc_validationError (m : String) (d : Option String) :
    wrapExc (.validationError m d) = .validationError m d := by
  simp [wrapExc, PyExc.isValidationError]

lemma validate_required_fields_error (args : PyDict) (req : List String)
    (e : PyExc) (h : validate_required_fields args req = .error e) :
    ∃ m, e = .validationError m none := by
  unfold validate_required_fields at h
  split at h
  · cases h
  · cases h; exact ⟨_, rfl⟩
  · cases h; exact ⟨_, rfl⟩

lemma validate_non_empty_string_error (v : JVal) (fn : String) (e : PyExc)
    (h : validate_non_empty_string v fn = .error e) :
    ∃ m, e = .validationError m none := by
  unfold validate_non_empty_string at h
  split at h
  · split at h
    · cases h; exact ⟨_, rfl⟩
    · cases h
  · cases h; exact ⟨_, rfl⟩

lemma validate_non_empty_string_ok (s : String) (fn : String) (r : String)
    (h : validate_non_empty_string (.jstr s) fn = .ok r) : r = pyStrip s := by
  unfold validate_non_empty_string at h
  dsimp only at h
  split at h
  · cases h
  · cases h; rfl

lemma validate_unit_error (u : JVal) (e : PyExc)
    (h : validate_unit u = .error e) : ∃ m, e = .validationError m none := by
  unfold validate_unit at h
  split at h
  · split at h
    · cases h
    · cases h; exact ⟨_, rfl⟩
  · cases h; exact ⟨_, rfl⟩

lemma validate_plane_jstr_error (p : String) (e : PyExc)
    (h : validate_plane (.jstr p) = .error e) :
    ∃ m, e = .validationError m none := by
  unfold validate_plane at h
  dsimp only at h
  split at h
  · cases h
  · cases h; exact ⟨_, rfl⟩

lemma check_parameter_name_collision_error (n : String) (ps : List String)
    (e : PyExc) (h : check_parameter_name_collision n ps = .error e) :
    ∃ m, e = .validationError m none := by
  unfold check_parameter_name_collision at h
  split at h
  · cases h; exact ⟨_, rfl⟩
  · cases h

lemma check_parameter_name_collision_ok (n : String) (ps : List String) (u : Unit)
    (h : check_parameter_name_collision n ps = .ok u) : ps.contains n = false := by
  by_cases hc : ps.contains n
  · unfold check_parameter_name_collision at h
    rw [if_pos hc] at h
    cases h
  · simpa using hc

lemma check_sketch_name_collision_error (n : String) (ss : List String)
    (e : PyExc) (h : check_sketch_name_collision n ss = .error e) :
    ∃ m, e = .validationError m none := by
  unfold check_sketch_name_collision at h
  split at h
  · cases h; exact ⟨_, rfl⟩
  · cases h

lemma check_sketch_name_collision_ok (n : String) (ss : List String) (u : Unit)
    (h : check_sketch_name_collision n ss = .ok u) : ss.contains n = false := by
  by_cases hc : ss.contains n
  · unfold check_sketch_name_collision at h
    rw [if_pos hc] at h
    cases h
  · simpa using hc

lemma createParameterValidate_error (design : DesignState) (args : PyDict)
    (e : PyExc) (h : createParameterValidate design args = .error e) :
    ∃ m, e = .validationError m none := by
  unfold createParameterValidate at h
  simp only [bind, Except.bind, pure, Except.pure] at h
  cases h1 : validate_required_fields args ["name", "expression", "unit"] with
  | error e1 =>
    rw [h1] at h; dsimp only at h; cases h
    exact validate_required_fields_error _ _ _ h1
  | ok u1 =>
    rw [h1] at h; dsimp only at h
    cases h2 : validate_non_empty_string ((pyGet args "name").getD .jnull) "name" with
    | error e2 =>
      rw [h2] at h; dsimp only at h; cases h
      exact validate_non_empty_string_error _ _ _ h2
    | ok name =>
      rw [h2] at h; dsimp only at h
      cases h3 : validate_unit ((pyGet args "unit").getD .jnull) with
      | error e3 =>
        rw [h3] at h; dsimp only at h; cases h
        exact validate_unit_error _ _ h3
      | ok u3 =>
        rw [h3] at h; dsimp only at h
        cases hcv : (pyGet args "comment").getD (.jstr "") with
        | jnull =>
          rw [hcv] at h; dsimp only at h
          cases h5 : check_parameter_name_collision name design.userParams with
          | error e5 =>
            rw [h5] at h; dsimp only at h; cases h
            exact check_parameter_name_collision_error _ _ _ h5
          | ok u5 => rw [h5] at h; dsimp only at h; cases h
        | jstr s =>
          rw [hcv] at h; dsimp only at h
          cases h5 : check_parameter_name_collision name design.userParams with
          | error e5 =>
            rw [h5] at h; dsimp only at h; cases h
            exact check_parameter_name_collision_error _ _ _ h5
          | ok u5 => rw [h5] at h; dsimp only at h; cases h
        | jbool b => rw [hcv] at h; dsimp only at h; cases h; exact ⟨_, rfl⟩
        | jnum n => rw [hcv] at h; dsimp only at h; cases h; exact ⟨_, rfl⟩
        | jarr l => rw [hcv] at h; dsimp only at h; cases h; exact ⟨_, rfl⟩
        | jobj o => rw [hcv] at h; dsimp only at h; cases h; exact ⟨_, rfl⟩

lemma createParameterValidate_ok (design : DesignState) (args : PyDict)
    (v : ParamArgs) (h : createParameterValidate design args = .ok v) :
    design.userParams.contains v.name = false ∧
    ∀ n, pyGet args "name" = some (.jstr n) → v.name = pyStrip n := by
  unfold createParameterValidate at h
  simp only [bind, Except.bind, pure, Except.pure] at h
  cases h1 : validate_required_fields args ["name", "expression", "unit"] with
  | error e1 => rw [h1] at h; dsimp only at h; cases h
  | ok u1 =>
    rw [h1] at h; dsimp only at h
    cases h2 : validate_non_empty_string ((pyGet args "name").getD .jnull) "name" with
    | error e2 => rw [h2] at h; dsimp only at h; cases h
    | ok name =>
      rw [h2] at h; dsimp only at h
      cases h3 : validate_unit ((pyGet args "unit").getD .jnull) with
      | error e3 => rw [h3] at h; dsimp only at h; cases h
      | ok u3 =>
        rw [h3] at h; dsimp only at h
        have hfin : ∀ (hcol : check_parameter_name_collision name design.userParams = .ok ()) (hv : v.name = name),
            design.userParams.contains v.name = false ∧
            ∀ n, pyGet args "name" = some (.jstr n) → v.name = pyStrip n := by
          intro hcol hv
          constructor
          · rw [hv]; exact check_parameter_name_collision_ok _ _ () hcol
          · intro n hn
            rw [hn] at h2
            simp only [Option.getD_some] at h2
            rw [hv]
            exact validate_non_empty_string_ok _ _ _ h2
        cases hcv : (pyGet args "comment").getD (.jstr "") with
        | jnull =>
          rw [hcv] at h; dsimp only at h
          cases h5 : check_parameter_name_collision name design.userParams with
          | error e5 => rw [h5] at h; dsimp only at h; cases h
          | ok u5 =>
            rw [h5] at h; dsimp only at h; cases h
            exact hfin h5 rfl
        | jstr s =>
          rw [hcv] at h; dsimp only at h
          cases h5 : check_parameter_name_collision name design.userParams with
          | error e5 => rw [h5] at h; dsimp only at h; cases h
          | ok u5 =>
            rw [h5] at h; dsimp only at h; cases h
            exact hfin h5 rfl
        | jbool b => rw [hcv] at h; dsimp only at h; cases h
        | jnum n => rw [hcv] at h; dsimp only at h; cases h
        | jarr l => rw [hcv] at h; dsimp only at h; cases h
        | jobj o => rw [hcv] at h; dsimp only at h; cases h

lemma createSketchValidate_error (design : DesignState) (args : PyDict)
    (e : PyExc) (p : String) (hp : pyGet args "plane" = some (.jstr p))
    (h : createSketchValidate design args = .error e) :
    ∃ m, e = .validationError m none := by
  unfold createSketchValidate at h
  simp only [bind, Except.bind, pure, Except.pure] at h
  rw [hp] at h
  simp only [Option.getD_some] at h
  cases h1 : validate_required_fields args ["plane", "name"] with
  | error e1 =>
    rw [h1] at h; dsimp only at h; cases h
    exact validate_required_fields_error _ _ _ h1
  | ok u1 =>
    rw [h1] at h; dsimp only at h
    cases h2 : validate_plane (.jstr p) with
    | error e2 =>
      rw [h2] at h; dsimp only at h; cases h
      exact validate_plane_jstr_error _ _ h2
    | ok plane =>
      rw [h2] at h; dsimp only at h
      cases h3 : validate_non_empty_string ((pyGet args "name").getD .jnull) "name" with
      | error e3 =>
        rw [h3] at h; dsimp only at h; cases h
        exact validate_non_empty_string_error _ _ _ h3
      | ok name =>
        rw [h3] at h; dsimp only at h
        cases h5 : check_sketch_name_collision name design.sketches with
        | error e5 =>
          rw [h5] at h; dsimp only at h; cases h
          exact check_sketch_name_collision_error _ _ _ h5
        | ok u5 => rw [h5] at h; dsimp only at h; cases h

lemma createSketchValidate_ok (design : DesignState) (args : PyDict)
    (v : SketchArgs) (h : createSketchValidate design args = .ok v) :
    design.sketches.contains v.name = false ∧
    ∀ n, pyGet args "name" = some (.jstr n) → v.name = pyStrip n := by
  unfold createSketchValidate at h
  simp only [bind, Except.bind, pure, Except.pure] at h
  cases h1 : validate_required_fields args ["plane", "name"] with
  | error e1 => rw [h1] at h; dsimp only at h; cases h
  | ok u1 =>
    rw [h1] at h; dsimp only at h
    cases h2 : validate_plane ((pyGet args "plane").getD .jnull) with
    | error e2 => rw [h2] at h; dsimp only at h; cases h
    | ok plane =>
      rw [h2] at h; dsimp only at h
      cases h3 : validate_non_empty_string ((pyGet args "name").getD .jnull) "name" with
      | error e3 => rw [h3] at h; dsimp only at h; cases h
      | ok name =>
        rw [h3] at h; dsimp only at h
        cases h5 : check_sketch_name_collision name design.sketches with
        | error e5 => rw [h5] at h; dsimp only at h; cases h
        | ok u5 =>
          rw [h5] at h; dsimp only at h; cases h
          constructor
          · exact check_sketch_name_collision_ok _ _ () h5
          · intro n hn
            rw [hn] at h3
            simp only [Option.getD_some] at h3
            exact validate_non_empty_string_ok _ _ _ h3

lemma catchErrorInfo_code (ex : PyExc) :
    (catchErrorInfo ex).code ∈
      (["E_BAD_ARGS", "E_RUNTIME", "E_ACTION_UNSUPPORTED", "E_UNAUTHORIZED",
        "E_BAD_JSON", "E_NOT_FOUND"] : List String) := by
  cases ex <;> simp [catchErrorInfo]

/-! ## Claim theorems -/

/-- C1: every POST to `/v1/execute` is answered with HTTP status 200,
and the response body is either `{"status": "ok", "result": ...}` or
`{"status": "error", "error": {"code": ..., "message": ...}}` — also
when the body is missing, the JSON is invalid, the action is unknown,
or the handler raises. -/
theorem c1_execute_post_contract (env : Env) (req : PostRequest)
    (h : req.path = "/v1/execute") :
    (doPOST env req).1.status = 200 ∧
    ((∃ r i, (doPOST env req).1.body = .okResult r i) ∨
     (∃ e i, (doPOST env req).1.body = .err e i)) := by
  unfold doPOST
  rw [h]
  by_cases ha : tokenMatches env.authToken req.token
  · rw [if_neg (not_not_intro ha)]
    rw [if_neg (by decide : ¬ ("/v1/execute" : String) = "/dev/reload")]
    rw [if_neg (by simp : ¬ ("/v1/execute" : String) ≠ "/v1/execute")]
    cases req.body with
    | empty => exact ⟨rfl, Or.inr ⟨_, _, rfl⟩⟩
    | badLength m => exact ⟨rfl, Or.inr ⟨_, _, rfl⟩⟩
    | malformed m => exact ⟨rfl, Or.inr ⟨_, _, rfl⟩⟩
    | parsed j =>
      cases j with
      | jobj fields =>
        dsimp only
        by_cases hact : (((JVal.jobj fields).get "action").getD JVal.jnull).truthy
        · rw [if_neg (not_not_intro hact)]
          cases env.registry (((JVal.jobj fields).get "action").getD JVal.jnull)
              (((JVal.jobj fields).get "args").getD (JVal.jobj [])) with
          | ok r => exact ⟨rfl, Or.inl ⟨_, _, rfl⟩⟩
          | error e => exact ⟨rfl, Or.inr ⟨_, _, rfl⟩⟩
        · rw [if_pos hact]
          exact ⟨rfl, Or.inr ⟨_, _, rfl⟩⟩
      | jnull => exact ⟨rfl, Or.inr ⟨_, _, rfl⟩⟩
      | jbool b => exact ⟨rfl, Or.inr ⟨_, _, rfl⟩⟩
      | jnum n => exact ⟨rfl, Or.inr ⟨_, _, rfl⟩⟩
      | jstr s => exact ⟨rfl, Or.inr ⟨_, _, rfl⟩⟩
      | jarr l => exact ⟨rfl, Or.inr ⟨_, _, rfl⟩⟩
  · rw [if_pos ha]
    exact ⟨rfl, Or.inr ⟨_, _, rfl⟩⟩

/-- Witness for C1: a POST to `/v1/execute` with an empty body gets a
200 response with an ok-or-error body (here: the `E_BAD_ARGS` error). -/
theorem c1_witness :
    (doPOST env0 reqEmptyBody).1.status = 200 ∧
    ((∃ r i, (doPOST env0 reqEmptyBody).1.body = .okResult r i) ∨
     (∃ e i, (doPOST env0 reqEmptyBody).1.body = .err e i)) :=
  c1_execute_post_contract env0 reqEmptyBody rfl

/-- C2 counterexample: a POST to `/v1/execute` whose body is not valid
JSON is answered with error code `E_BAD_JSON`, which is not one of the
four codes the claim allows (`E_BAD_ARGS`, `E_RUNTIME`,
`E_ACTION_UNSUPPORTED`, `E_UNAUTHORIZED`). -/
theorem c2_counterexample :
    (doPOST env0 reqBadJson).1.body =
      .err ⟨"E_BAD_JSON", "Invalid JSON: Expecting value: line 1 column 1 (char 0)", []⟩ none ∧
    ("E_BAD_JSON" : String) ∉
      (["E_BAD_ARGS", "E_RUNTIME", "E_ACTION_UNSUPPORTED", "E_UNAUTHORIZED"] : List String) :=
  ⟨rfl, by decide⟩

/-- C2 amended: every error response produced by the bridge's POST and
GET handling carries one of six code strings — the four the claim
names plus `E_BAD_JSON` (unparseable request body) and `E_NOT_FOUND`
(unknown endpoint) — surfaced verbatim to the caller. -/
theorem c2_amended_error_codes (env : Env) (req : PostRequest) (greq : GetRequest)
    (e : ErrorInfo) (i : Option JVal) :
    ((doPOST env req).1.body = .err e i ∨ (doGET env greq).body = .err e i) →
    e.code ∈ (["E_BAD_ARGS", "E_RUNTIME", "E_ACTION_UNSUPPORTED", "E_UNAUTHORIZED",
               "E_BAD_JSON", "E_NOT_FOUND"] : List String) := by
  rintro (h | h)
  · unfold doPOST at h
    repeat' (first | (split at h) | (dsimp only at h))
    all_goals (try cases h)
    all_goals (first | decide | exact catchErrorInfo_code _ | simp)
  · unfold doGET at h
    repeat' (first | (split at h) | (dsimp only at h))
    all_goals (try cases h)
    all_goals decide

/-- Witness for C2 amended: the `E_BAD_JSON` response of the
counterexample request does carry one of the six codes. -/
theorem c2_amended_witness :
    ("E_BAD_JSON" : String) ∈
      (["E_BAD_ARGS", "E_RUNTIME", "E_ACTION_UNSUPPORTED", "E_UNAUTHORIZED",
        "E_BAD_JSON", "E_NOT_FOUND"] : List String) :=
  c2_amended_error_codes env0 reqBadJson greq0
    ⟨"E_BAD_JSON", "Invalid JSON: Expecting value: line 1 column 1 (char 0)", []⟩ none
    (Or.inl rfl)

/-- C5: when an auth token is configured, a request passes the
`_check_auth` gate if and only if its `X-Bridge-Token` header is
exactly the configured token; a request failing the gate is answered
with error code `E_UNAUTHORIZED` and no action is executed (the
registry is never invoked); with no token configured every request
passes the gate. -/
theorem c5_token_auth_gate (env : Env) (req : PostRequest) :
    (env.authToken = none → tokenMatches env.authToken req.token = true) ∧
    (∀ t, env.authToken = some t →
      (tokenMatches env.authToken req.token = true ↔ req.token = some t)) ∧
    (tokenMatches env.authToken req.token = false →
      (doPOST env req).2 = false ∧
      (doPOST env req).1 = ⟨200, .err ⟨"E_UNAUTHORIZED",
        "Invalid or missing X-Bridge-Token header", []⟩ none⟩) ∧
    ((doPOST env req).2 = true → tokenMatches env.authToken req.token = true) := by
  refine ⟨?_, ?_, ?_, ?_⟩
  · intro h; simp [tokenMatches, h]
  · intro t ht; simp [tokenMatches, ht]
  · intro hf
    unfold doPOST
    rw [if_pos (by simp [hf])]
    exact ⟨rfl, rfl⟩
  · intro ht
    by_contra hc
    rw [Bool.not_eq_true] at hc
    unfold doPOST at ht
    rw [if_pos (by simp [hc])] at ht
    cases ht

/-- C9: `create_parameter` and `create_sketch` raise a
`ValidationError` (code `E_BAD_ARGS` by the `ValidationError`
constructor) when a user parameter (resp. a root-component sketch)
with the requested name already exists — the collision check runs in
`validate`, before any host API call — and whenever these handlers
return an error the design state is unchanged.  (For `create_sketch`
the plane argument is assumed to be a string, as a non-string plane
aborts validation with its own error before the collision check is
reached.) -/
theorem c9_creation_collision_checks (design : DesignState) (args : PyDict) :
    (∀ n, pyGet args "name" = some (.jstr n) → pyStrip n ∈ design.userParams →
       ∃ m, (createParameterHandle design args).1 = .error (.validationError m none)) ∧
    (∀ e, (createParameterHandle design args).1 = .error e →
       (createParameterHandle design args).2 = design) ∧
    (∀ n p, pyGet args "name" = some (.jstr n) → pyGet args "plane" = some (.jstr p) →
       pyStrip n ∈ design.sketches →
       ∃ m, (createSketchHandle design args).1 = .error (.validationError m none)) ∧
    (∀ e, (createSketchHandle design args).1 = .error e →
       (createSketchHandle design args).2 = design) := by
  refine ⟨?_, ?_, ?_, ?_⟩
  · intro n hn hmem
    unfold createParameterHandle
    cases hv : createParameterValidate design args with
    | error e =>
      obtain ⟨m, hm⟩ := createParameterValidate_error design args e hv
      subst hm
      exact ⟨m, by dsimp only; rw [wrapExc_validationError]⟩
    | ok v =>
      exfalso
      obtain ⟨hc, hname⟩ := createParameterValidate_ok design args v hv
      rw [hname n hn] at hc
      rw [(by simpa using hmem : design.userParams.contains (pyStrip n) = true)] at hc
      cases hc
  · intro e he
    unfold createParameterHandle at he ⊢
    cases hv : createParameterValidate design args with
    | error e' => rfl
    | ok v => rw [hv] at he; dsimp only at he; cases he
  · intro n p hn hp hmem
    unfold createSketchHandle
    cases hv : createSketchValidate design args with
    | error e =>
      obtain ⟨m, hm⟩ := createSketchValidate_error design args e p hp hv
      subst hm
      exact ⟨m, by dsimp only; rw [wrapExc_validationError]⟩
    | ok v =>
      exfalso
      obtain ⟨hc, hname⟩ := createSketchValidate_ok design args v hv
      rw [hname n hn] at hc
      rw [(by simpa using hmem : design.sketches.contains (pyStrip n) = true)] at hc
      cases hc
  · intro e he
    unfold createSketchHandle at he ⊢
    cases hv : createSketchValidate design args with
    | error e' => rfl
    | ok v => rw [hv] at he; dsimp only at he; cases he

/-- Witness for C9: creating parameter `width` when `width` already
exists yields a `ValidationError`, and the design state is unchanged. -/
theorem c9_witness :
    (∃ m, (createParameterHandle design0 argsDupParam).1 =
       .error (.validationError m none)) ∧
    (∃ m, (createSketchHandle design0 argsDupSketch).1 =
       .error (.validationError m none)) :=
  ⟨(c9_creation_collision_checks design0 argsDupParam).1 "width" rfl (by decide),
   (c9_creation_collision_checks design0 argsDupSketch).2.2.1 "Base" "XY" rfl rfl
     (by decide)⟩

/-- Witness for C5: with token `secret` configured, a request carrying
token `wrong` is rejected with `E_UNAUTHORIZED` and the registry is
not invoked. -/
theorem c5_witness :
    (doPOST envTok reqWrongTok).2 = false ∧
    (doPOST envTok reqWrongTok).1 = ⟨200, .err ⟨"E_UNAUTHORIZED",
      "Invalid or missing X-Bridge-Token header", []⟩ none⟩ :=
  (c5_token_auth_gate envTok reqWrongTok).2.2.1 rfl

/-- C6: `resolve_body_ref` re-resolves from the current root component
state on each call and returns the first body (here: its index into
the current `bRepBodies` collection) whose name equals the requested
`body` field; it raises a `ValidationError` (code `E_BAD_ARGS`)
exactly when the ref is not a dict, `component` or `body` is missing
or falsy, the component differs from the root component's name, or no
body carries the requested name. -/
theorem c6_resolve_body_ref (root : RootComp) (ref : JVal) :
    ((∃ e, resolve_body_ref root ref = .error e) ↔
      (ref.isObj = false ∨ (refField ref "component").truthy = false ∨
       (refField ref "body").truthy = false ∨
       (refField ref "component").eqStr root.name = false ∨
       ∀ b ∈ root.bodies, (refField ref "body").eqStr b = false)) ∧
    (∀ e, resolve_body_ref root ref = .error e →
       ∃ m, e = .validationError m none) ∧
    (∀ i, resolve_body_ref root ref = .ok i →
       ∃ b, root.bodies.get? i = some b ∧
         (refField ref "body").eqStr b = true ∧
         ∀ j b', j < i → root.bodies.get? j = some b' →
           (refField ref "body").eqStr b' = false) := by
  unfold resolve_body_ref
  by_cases hobj : ref.isObj
  · rw [if_neg (not_not_intro hobj)]
    dsimp only
    by_cases hcb : ¬ (refField ref "component").truthy ∨ ¬ (refField ref "body").truthy
    · rw [if_pos hcb]
      refine ⟨⟨fun _ => ?_, fun _ => ⟨_, rfl⟩⟩, fun e he => by cases he; exact ⟨_, rfl⟩,
        fun i h => by cases h⟩
      rcases hcb with hx | hx
      · exact Or.inr (Or.inl (by simpa using hx))
      · exact Or.inr (Or.inr (Or.inl (by simpa using hx)))
    · rw [if_neg hcb]
      rw [not_or, not_not, not_not] at hcb
      obtain ⟨hct, hbt⟩ := hcb
      by_cases hn : ¬ (refField ref "component").eqStr root.name
      · rw [if_pos hn]
        refine ⟨⟨fun _ => ?_, fun _ => ⟨_, rfl⟩⟩, fun e he => by cases he; exact ⟨_, rfl⟩,
          fun i h => by cases h⟩
        exact Or.inr (Or.inr (Or.inr (Or.inl (by simpa using hn))))
      · rw [if_neg hn]
        rw [not_not] at hn
        cases hf : findFirstIdx root.bodies (refField ref "body") with
        | none =>
          dsimp only
          refine ⟨⟨fun _ => ?_, fun _ => ⟨_, rfl⟩⟩, fun e he => by cases he; exact ⟨_, rfl⟩,
            fun i h => by cases h⟩
          exact Or.inr (Or.inr (Or.inr (Or.inr (findFirstIdx_none_iff _ _ |>.mp hf))))
        | some k =>
          dsimp only
          refine ⟨⟨fun he => ?_, fun hr => ?_⟩, fun e he => Except.noConfusion he,
            fun i h => ?_⟩
          · obtain ⟨e, he⟩ := he; exact Except.noConfusion he
          · exfalso
            rcases hr with hx | hx | hx | hx | hx
            · rw [hobj] at hx; cases hx
            · rw [hct] at hx; cases hx
            · rw [hbt] at hx; cases hx
            · rw [hn] at hx; cases hx
            · obtain ⟨b, hget, heq, _⟩ := findFirstIdx_some root.bodies _ k hf
              rw [hx b (List.get?_mem hget)] at heq
              cases heq
          · cases Except.ok.inj h
            exact findFirstIdx_some root.bodies _ k hf
  · rw [if_pos (by simpa using hobj)]
    refine ⟨⟨fun _ => Or.inl (by simpa using hobj), fun _ => ⟨_, rfl⟩⟩,
      fun e he => by cases he; exact ⟨_, rfl⟩, fun i h => by cases h⟩

/-- Witness for C6: on a root component with bodies `Body1, Body2`,
resolving a ref to `Body2` returns the first (and only) match, at
index 1. -/
theorem c6_witness :
    ∃ b, root0.bodies.get? 1 = some b ∧
      (refField refBody2 "body").eqStr b = true ∧
      ∀ j b', j < 1 → root0.bodies.get? j = some b' →
        (refField refBody2 "body").eqStr b' = false :=
  (c6_resolve_body_ref root0 refBody2).2.2 1 rfl

/-- C7: the tool names listed by the MCP server's `list_tools`, the
keys of its `_TOOL_HANDLERS` dispatch table, and the action names
registered by the add-in's `HandlerRegistry._initialize_handlers`
are equal as sets — every MCP tool forwards to a registered bridge
action of the same name, and every registered action is exposed as an
MCP tool. -/
theorem c7_tool_action_sets_agree :
    (∀ s ∈ mcpToolNames, s ∈ registryActions) ∧
    (∀ s ∈ registryActions, s ∈ mcpToolNames) ∧
    (∀ s ∈ toolHandlerKeys, s ∈ registryActions) ∧
    (∀ s ∈ registryActions, s ∈ toolHandlerKeys) := by
  refine ⟨?_, ?_, ?_, ?_⟩ <;> decide

/-- Witness for C7 at the concrete tool name `trigger_ui_command`. -/
theorem c7_witness : "trigger_ui_command" ∈ registryActions :=
  c7_tool_action_sets_agree.1 "trigger_ui_command" (by decide)

/-- C3: `HandlerRegistry.handle_action` raises
`ActionNotSupportedError(action)` — code `E_ACTION_UNSUPPORTED`,
message `Unknown action: <action>` — exactly when the action is not a
key of the handler map (a registered handler can never produce that
exception through `BaseHandler.handle`); otherwise it returns the
result of the registered handler's `handle` method on the arguments,
found by one dictionary lookup. -/
theorem c3_handle_action_dispatch (g : Registry) (action : String) (args : JVal) :
    (g.handle_action action args = .error (.actionNotSupported action) ↔
      g.hasAction action = false) ∧
    (g.hasAction action = true →
      ∃ v ex, g.get_handler action = .ok (v, ex) ∧
        g.handle_action action args = baseHandle v ex args) := by
  unfold Registry.handle_action Registry.get_handler Registry.hasAction
  cases hf : g.handlers.find? (fun p => p.1 = action) with
  | none => simp
  | some p =>
    simp only [Option.isSome_some]
    constructor
    · constructor
      · intro h
        exact absurd h (baseHandle_ne_actionNotSupported p.2.1 p.2.2 args action)
      · intro h; cases h
    · intro _
      exact ⟨p.2.1, p.2.2, rfl, rfl⟩

/-- Witness for C3 at the empty registry and action `foo`. -/
theorem c3_witness :
    reg0.handle_action "foo" (.jobj []) = .error (.actionNotSupported "foo") :=
  (c3_handle_action_dispatch reg0 "foo" (.jobj [])).1.mpr rfl

/-- C4: `BaseHandler.handle` runs `execute` after `validate`; a
`ValidationError` (code `E_BAD_ARGS`) raised by either propagates
unchanged, any other exception is translated into a `FusionAPIError`
(code `E_RUNTIME`) whose message is prefixed `Operation failed: `, and
every exception escaping `handle` is one of those two shapes. -/
theorem c4_base_handle_translation
    (validate execute : JVal → Except PyExc JVal) (args : JVal) :
    (∀ v r, validate args = .ok v → execute v = .ok r →
       baseHandle validate execute args = .ok r) ∧
    (∀ m f, validate args = .error (.validationError m f) →
       baseHandle validate execute args = .error (.validationError m f)) ∧
    (∀ v m f, validate args = .ok v → execute v = .error (.validationError m f) →
       baseHandle validate execute args = .error (.validationError m f)) ∧
    (∀ e, validate args = .error e → e.isValidationError = false →
       baseHandle validate execute args =
         .error (.fusionAPIError ("Operation failed: " ++ e.pyStr) none)) ∧
    (∀ v e, validate args = .ok v → execute v = .error e →
       e.isValidationError = false →
       baseHandle validate execute args =
         .error (.fusionAPIError ("Operation failed: " ++ e.pyStr) none)) ∧
    (∀ e, baseHandle validate execute args = .error e →
       e.code = some "E_BAD_ARGS" ∨ e.code = some "E_RUNTIME") := by
  refine ⟨?_, ?_, ?_, ?_, ?_, ?_⟩
  · intro v r hv hx; unfold baseHandle; rw [hv]; dsimp only; rw [hx]
  · intro m f hv; unfold baseHandle; rw [hv]
    simp [PyExc.isValidationError]
  · intro v m f hv hx; unfold baseHandle; rw [hv]; dsimp only; rw [hx]
    simp [PyExc.isValidationError]
  · intro e hv he; unfold baseHandle; rw [hv]; simp [he]
  · intro v e hv hx he; unfold baseHandle; rw [hv]; dsimp only; rw [hx]; simp [he]
  · intro e h
    rcases baseHandle_error_shape validate execute args e h with hv | ⟨m, hm⟩
    · cases e <;> simp_all [PyExc.isValidationError, PyExc.code]
    · subst hm; exact Or.inr rfl

/-- Witness for C4: a handler whose `execute` raises a plain exception
sees it wrapped into an `Operation failed` `FusionAPIError`. -/
theorem c4_witness :
    baseHandle (fun a => .ok a) (fun _ => .error (.pyError "boom")) (.jobj []) =
      .error (.fusionAPIError "Operation failed: boom" none) :=
  (c4_base_handle_translation (fun a => .ok a)
      (fun _ => .error (.pyError "boom")) (.jobj [])).2.2.2.2.1
    (.jobj []) (.pyError "boom") rfl rfl rfl

/-- C10 counterexample: at the input `float('inf')` — reachable from
JSON since `json.loads` accepts `Infinity` — Python's `int()`
conversion fails, but `validate_non_negative_int` does not raise a
`ValidationError`: the `OverflowError` escapes its
`except (TypeError, ValueError)` clause uncaught, refuting the
claim's `raises a ValidationError exactly when the conversion
fails`. -/
theorem c10_counterexample :
    pyIntConv (.pfloat .inf) = .overflowError ∧
    validate_non_negative_int (.pfloat .inf) "profile_index" =
      .error (.pyError "cannot convert float infinity to integer") ∧
    (PyExc.pyError "cannot convert float infinity to integer").isValidationError
      = false :=
  ⟨rfl, rfl, rfl⟩

/-- C10 amended: `validate_non_negative_int` returns `int(value)` for
every value Python's `int()` accepts with a non-negative result —
fractional finite floats are truncated toward zero (3.9 becomes 3)
rather than rejected, and underscore-grouped or non-ASCII decimal
digit strings are accepted — and raises a `ValidationError` (code
`E_BAD_ARGS`, message `<field> must be a non-negative integer`)
exactly when the conversion raises `TypeError` or `ValueError` or the
converted integer is negative; when `int()` raises `OverflowError`
(an infinite float), that exception escapes the validator uncaught
instead of becoming a `ValidationError`. -/
theorem c10_amended_validate_non_negative_int (v : PyVal) (f : String) :
    (∀ n, pyIntConv v = .ok n → 0 ≤ n →
       validate_non_negative_int v f = .ok n) ∧
    (∀ n, validate_non_negative_int v f = .ok n →
       pyIntConv v = .ok n ∧ 0 ≤ n) ∧
    ((∃ m, validate_non_negative_int v f = .error (.validationError m none)) ↔
      (pyIntConv v = .typeError ∨ pyIntConv v = .valueError ∨
       ∃ n, pyIntConv v = .ok n ∧ n < 0)) ∧
    (∀ m, validate_non_negative_int v f = .error (.validationError m none) →
       m = f ++ " must be a non-negative integer") ∧
    (pyIntConv v = .overflowError →
       validate_non_negative_int v f =
         .error (.pyError "cannot convert float infinity to integer")) ∧
    (∀ q, pyIntConv (.pfloat (.finite q)) = .ok (pyTrunc q)) := by
  unfold validate_non_negative_int
  cases hc : pyIntConv v with
  | ok n0 =>
    dsimp only
    by_cases hn0 : n0 < 0
    · rw [if_pos hn0]
      refine ⟨?_, ?_, ⟨fun _ => Or.inr (Or.inr ⟨n0, rfl, hn0⟩), fun _ => ⟨_, rfl⟩⟩,
        ?_, ?_, fun q => rfl⟩
      · intro n hn h0
        cases PyIntResult.ok.inj hn
        exact absurd hn0 (not_lt.mpr h0)
      · intro n h
        cases h
      · intro m h
        cases h
        rfl
      · intro h
        cases h
    · rw [if_neg hn0]
      refine ⟨?_, ?_, ⟨?_, ?_⟩, ?_, ?_, fun q => rfl⟩
      · intro n hn h0
        cases PyIntResult.ok.inj hn
        rfl
      · intro n h
        cases Except.ok.inj h
        exact ⟨rfl, le_of_not_lt hn0⟩
      · rintro ⟨m, hm⟩
        cases hm
      · rintro (h | h | ⟨n, hn, hlt⟩)
        · cases h
        · cases h
        · cases PyIntResult.ok.inj hn
          exact absurd hlt hn0
      · intro m h
        cases h
      · intro h
        cases h
  | typeError =>
    dsimp only
    refine ⟨?_, ?_, ⟨fun _ => Or.inl rfl, fun _ => ⟨_, rfl⟩⟩, ?_, ?_, fun q => rfl⟩
    · intro n hn
      cases hn
    · intro n h
      cases h
    · intro m h
      cases h
      rfl
    · intro h
      cases h
  | valueError =>
    dsimp only
    refine ⟨?_, ?_, ⟨fun _ => Or.inr (Or.inl rfl), fun _ => ⟨_, rfl⟩⟩, ?_, ?_,
      fun q => rfl⟩
    · intro n hn
      cases hn
    · intro n h
      cases h
    · intro m h
      cases h
      rfl
    · intro h
      cases h
  | overflowError =>
    dsimp only
    refine ⟨?_, ?_, ⟨?_, ?_⟩, ?_, ?_, fun q => rfl⟩
    · intro n hn
      cases hn
    · intro n h
      cases h
    · rintro ⟨m, hm⟩
      cases hm
    · rintro (h | h | ⟨n, hn, hx⟩)
      · cases h
      · cases h
      · cases hn
    · intro m h
      cases h
    · intro h
      rfl

/-- Witness for C10 amended: the float 3.9 (the rational 39/10)
truncates to 3; the underscore-grouped string `1_0` converts to 10 and
the Arabic-Indic digit string converts to 3; the infinite float makes
the uncaught `OverflowError` escape. -/
theorem c10_witness :
    validate_non_negative_int (.pfloat (.finite (mkRat 39 10))) "count" = .ok 3 ∧
    mkRat 39 10 = (39/10 : ℚ) ∧
    validate_non_negative_int (.pstr "1_0") "count" = .ok 10 ∧
    validate_non_negative_int (.pstr "٣") "count" = .ok 3 ∧
    validate_non_negative_int (.pfloat .inf) "count" =
      .error (.pyError "cannot convert float infinity to integer") :=
  ⟨(c10_amended_validate_non_negative_int (.pfloat (.finite (mkRat 39 10)))
      "count").1 3 (by decide) (by decide),
   by norm_num [Rat.mkRat_eq_div],
   (c10_amended_validate_non_negative_int (.pstr "1_0") "count").1 10
     (by decide) (by decide),
   (c10_amended_validate_non_negative_int (.pstr "٣") "count").1 3
     (by decide) (by decide),
   (c10_amended_validate_non_negative_int (.pfloat .inf) "count").2.2.2.2.1 rfl⟩

end Bridge
